import Mathlib

/-!
# Verification of the floating-window chat demo

Shallow embedding, in Lean 4, of the parts of the repository that the
frozen claims are about:

* `src/js/windows.js` — the window manager (registry, focus, close,
  resize, snap-to-grid, persisted layout).  Coordinates are modelled as
  exact rationals `ℚ` standing for JS numbers.
* `src/js/gestures.js` — the pointer-gesture recognizer
  (`attachWindowGestures`), modelled as an explicit state machine over
  pointer events; coordinates are modelled as reals `ℝ` because the code
  computes Euclidean distances with `Math.hypot`.
* `src/js/db.js` — the localStorage-backed message store (`saveMessage`,
  `getMessages`, `escapeHtml`).

DOM manipulation, CSS, animation wrappers and the `localStorage` calls
themselves are not modelled: the embedding keeps the data they carry
(the registry, the persisted-layout object, the DB object) as explicit
state.  Timers (the long-press timer) are real-time behaviour and are
omitted; the lines that only clear that timer have no effect on any
modelled field.
-/

/-! ## Window manager (`src/js/windows.js`) -/

/-- `SNAP_SIZE` from `windows.js`. -/
def SNAP_SIZE : ℚ := 24

/-- `snap(value)` from `windows.js`: `Math.round(value / SNAP_SIZE) * SNAP_SIZE`.
JS `Math.round` rounds half-way cases toward `+∞`, which is exactly
Lean's `round` (`round x = ⌊x + 1/2⌋`). -/
def snap (value : ℚ) : ℚ := (round (value / SNAP_SIZE) : ℚ) * SNAP_SIZE

/-- Geometry record stored per window (`rect` in `createWindow`, and the
persisted shape written by `persistStateSnapshot`). -/
structure WRect where
  x : ℚ
  y : ℚ
  w : ℚ
  h : ℚ
deriving DecidableEq

/-- The `windowRecord` object from `createWindow` in `windows.js`.
`z` models `element.style.zIndex` (0 before the first focus),
`focused` models the `window--focused` class toggle and `content`
models `body.innerHTML`. -/
structure WRecord where
  id : String
  rect : WRect
  z : ℕ
  focused : Bool
  minimized : Bool
  modal : Bool
  content : String
deriving DecidableEq

/-- Module-level state of `windows.js`: the `windows` Map (insertion
ordered), the `zIndexCursor` counter and the persisted `state` object
(an insertion-ordered string-keyed object, modelled as an association
list). -/
structure WM where
  windows : List WRecord
  zIndexCursor : ℕ
  state : List (String × WRect)
deriving DecidableEq

/-- `windows.get(id)` (a JS Map lookup). -/
def lookupWindow (wm : WM) (id : String) : Option WRecord :=
  wm.windows.find? (fun w => w.id == id)

/-- `state[id]` lookup on the persisted-layout object. -/
def stateLookup (st : List (String × WRect)) (id : String) : Option WRect :=
  (st.find? (fun kv => kv.1 == id)).map Prod.snd

/-- `state[id] = v` on the persisted-layout object: replace the existing
binding in place, otherwise append (JS objects keep insertion order). -/
def stateSet : List (String × WRect) → String → WRect → List (String × WRect)
  | [], id, v => [(id, v)]
  | kv :: rest, id, v =>
    if kv.1 = id then (id, v) :: rest else kv :: stateSet rest id v

/-- JS `parseInt(n, 10)` on a (finite, decimal-printed) number truncates
toward zero. -/
def jsTrunc (q : ℚ) : ℤ := if 0 ≤ q then ⌊q⌋ else -⌊-q⌋

/-- The `w`/`h` fields written by `persistStateSnapshot`:
`parseInt(rect.w, 10) || rect.w` (the `||` falls back when the parsed
integer is `0`, which is falsy). -/
def persistDim (q : ℚ) : ℚ := if jsTrunc q = 0 then q else (jsTrunc q : ℚ)

/-- `persistStateSnapshot(id, rect)` from `windows.js` (the
`localStorage.setItem` side of `persistState` is the `state` field
itself). -/
def persistStateSnapshot (wm : WM) (id : String) (rect : WRect) : WM :=
  { wm with state := stateSet wm.state id ⟨rect.x, rect.y, persistDim rect.w, persistDim rect.h⟩ }

/-- `focusWindow(id)` from `windows.js`: no-op on an unknown id;
otherwise bump `zIndexCursor`, give the window that z-index, and toggle
the `window--focused` class so that exactly the ids equal to `id` carry
it. -/
def focusWindow (wm : WM) (id : String) : WM :=
  match lookupWindow wm id with
  | none => wm
  | some _ =>
    let z1 := wm.zIndexCursor + 1
    { wm with
      zIndexCursor := z1,
      windows := wm.windows.map (fun w =>
        if w.id = id then { w with z := z1, focused := true }
        else { w with focused := false }) }

/-- `closeWindow(id)` from `windows.js`: no-op on an unknown id;
otherwise remove the record from the Map and delete its persisted
geometry (the body of the `animateWindowClose` completion callback). -/
def closeWindow (wm : WM) (id : String) : WM :=
  match lookupWindow wm id with
  | none => wm
  | some _ =>
    { wm with
      windows := wm.windows.filter (fun w => w.id != id),
      state := wm.state.filter (fun kv => kv.1 != id) }

/-- `setWindowSize(id, w, h)` from `windows.js`: sets the record's
width/height with no clamping, then persists a snapshot. -/
def setWindowSize (wm : WM) (id : String) (w h : ℚ) : WM :=
  match lookupWindow wm id with
  | none => wm
  | some record =>
    let rect1 : WRect := { record.rect with w := w, h := h }
    let wm1 := { wm with
      windows := wm.windows.map (fun r =>
        if r.id = id then { r with rect := rect1 } else r) }
    persistStateSnapshot wm1 id rect1

/-- The per-move handler installed by `startResize` in `windows.js`:
`rect.w = Math.max(220, startSize.w + deltaX)` and
`rect.h = Math.max(160, startSize.h + deltaY)`. -/
def resizeMove (startW startH deltaX deltaY : ℚ) : ℚ × ℚ :=
  (max 220 (startW + deltaX), max 160 (startH + deltaY))

/-- The `up` handler installed by `startResize` in `windows.js`:
`rect.w = snap(rect.w); rect.h = snap(rect.h)` before persisting. -/
def resizeUpSnap (w h : ℚ) : ℚ × ℚ := (snap w, snap h)

/-- Options object taken by `createWindow` in `windows.js`; `contentHtml`
is modelled as a `String` where `""` stands for a missing/falsy value
(the code tests it with a truthiness check). The destructuring defaults
are `x = 80, y = 80, w = 360, h = 320, modal = false`, supplied here by
the caller. -/
structure WOpts where
  id : String
  title : String
  contentHtml : String
  x : ℚ
  y : ℚ
  w : ℚ
  h : ℚ
  modal : Bool

/-- `createWindow(opts)` from `windows.js`.  `throw` on a falsy id is
modelled as `none`.  On an existing id: focus it, replace its content if
`contentHtml` is truthy, and return the existing record.  Otherwise
build the record with geometry drawn from the persisted `state[id]` when
present (the code reads each field with `saved?.f ?? f`; persisted
entries are always written whole, so this is a whole-record fallback),
append it to the Map, and focus it.  DOM construction, gesture
attachment and animations are not modelled. -/
def createWindow (wm : WM) (o : WOpts) : Option (WM × WRecord) :=
  if o.id = "" then none
  else
    match lookupWindow wm o.id with
    | some _ =>
      let wm1 := focusWindow wm o.id
      let wm2 :=
        if o.contentHtml ≠ "" then
          { wm1 with windows := wm1.windows.map (fun w =>
              if w.id = o.id then { w with content := o.contentHtml } else w) }
        else wm1
      match lookupWindow wm2 o.id with
      | some existing => some (wm2, existing)
      | none => none
    | none =>
      let rect : WRect :=
        match stateLookup wm.state o.id with
        | some saved => saved
        | none => ⟨o.x, o.y, o.w, o.h⟩
      let record : WRecord :=
        { id := o.id, rect := rect, z := 0, focused := false,
          minimized := false, modal := o.modal, content := o.contentHtml }
      let wm1 := { wm with windows := wm.windows ++ [record] }
      let wm2 := focusWindow wm1 o.id
      match lookupWindow wm2 o.id with
      | some created => some (wm2, created)
      | none => none

/-- The initial module state of `windows.js` with an empty persisted
store: `zIndexCursor = 100`, no windows. -/
def initWM : WM := ⟨[], 100, []⟩

/-! ## Local database (`src/js/db.js`) -/

/-- `"str".replaceAll(needle, repl)` for a single-character needle,
on explicit character lists. -/
def jsReplaceAll (needle : Char) (repl : List Char) : List Char → List Char
  | [] => []
  | c :: cs => (if c = needle then repl else [c]) ++ jsReplaceAll needle repl cs

/-- The double-quote character. -/
def quoteChar : Char := Char.ofNat 34

/-- The apostrophe character. -/
def aposChar : Char := Char.ofNat 39

/-- `escapeHtml(value)` from `db.js`: the five sequential `replaceAll`
calls, `&` first. -/
def escapeHtml (value : List Char) : List Char :=
  jsReplaceAll aposChar "&#039;".data
    (jsReplaceAll quoteChar "&quot;".data
      (jsReplaceAll '>' "&gt;".data
        (jsReplaceAll '<' "&lt;".data
          (jsReplaceAll '&' "&amp;".data value))))

/-- A message record as stored in `db.messages[convId]`. -/
structure DMessage where
  id : String
  author : String
  text : List Char
  createdAt : ℤ
deriving DecidableEq

/-- A conversation record. Only the fields touched by `saveMessage` are
modelled. -/
structure DConv where
  id : String
  unread : ℕ
  lastMessageAt : ℤ
deriving DecidableEq

/-- The database object held in localStorage under `DB_KEY`:
`messages` is a string-keyed object of message arrays. `files` and
`windows` are untouched by the modelled operations and omitted. -/
structure Db where
  conversations : List DConv
  messages : List (String × List DMessage)
deriving DecidableEq

/-- `db.messages[convId]` lookup. -/
def msgsLookup (ms : List (String × List DMessage)) (convId : String) :
    Option (List DMessage) :=
  (ms.find? (fun kv => kv.1 == convId)).map Prod.snd

/-- `db.messages[convId] = v`: replace the existing binding in place,
otherwise append. -/
def msgsSet : List (String × List DMessage) → String → List DMessage →
    List (String × List DMessage)
  | [], convId, v => [(convId, v)]
  | kv :: rest, convId, v =>
    if kv.1 = convId then (convId, v) :: rest else kv :: msgsSet rest convId v

/-- `db.conversations.find(c => c.id === convId)` followed by a mutation:
update the first matching element only. -/
def updateFirstConv (convId : String) (f : DConv → DConv) :
    List DConv → List DConv
  | [] => []
  | c :: cs =>
    if c.id = convId then f c :: cs else c :: updateFirstConv convId f cs

/-- `saveMessage(convId, message)` from `db.js`.  `createId` draws on
`Math.random`, and `Date.now()` reads the clock, so the fresh id and the
current time are passed in as explicit parameters `freshId` and `now`
(used exactly where the code falls back on them: a falsy `message.id`
resp. a falsy `message.createdAt`).  The stored text is
`escapeHtml(message.text || '')`. -/
def saveMessage (db : Db) (convId : String) (message : DMessage)
    (freshId : String) (now : ℤ) : Db :=
  let safeMessage : DMessage :=
    { id := if message.id = "" then freshId else message.id
      author := message.author
      text := escapeHtml (if message.text = [] then [] else message.text)
      createdAt := if message.createdAt = 0 then now else message.createdAt }
  let existing := (msgsLookup db.messages convId).getD []
  { conversations :=
      updateFirstConv convId
        (fun c =>
          { c with
            lastMessageAt := safeMessage.createdAt,
            unread := if safeMessage.author ≠ "Вы" then c.unread + 1 else c.unread })
        db.conversations,
    messages := msgsSet db.messages convId (existing ++ [safeMessage]) }

/-- `getMessages(convId, {limit = 50})` from `db.js`:
`(db.messages[convId] || []).slice(-limit)`.  JS `slice(-0)` is
`slice(0)` (the whole array); for a positive `limit` it keeps the last
`limit` elements. -/
def getMessages (db : Db) (convId : String) (limit : ℕ) : List DMessage :=
  let messages := (msgsLookup db.messages convId).getD []
  if limit = 0 then messages else messages.drop (messages.length - limit)

/-! ## Gesture recognizer (`src/js/gestures.js`)

`attachWindowGestures` is modelled as a state machine.  One closure
state becomes `GState`; the four event listeners become the step
function `gstep`; callback invocations become the emitted `GOut` list.
`requestAnimationFrame` scheduling is modelled by a `frameRequested`
flag plus an explicit `frame` event that performs the scheduled flush.
The long-press timer (`startLongPress` / `clearLongPress`) is real-time
behaviour and is not modelled; those calls touch no other state.  The
tap check in `onPointerUp` has an empty body and pointer capture
acquisition/release has no modelled effect. -/

/-- One entry of the `pointers` Map (the object built in
`onPointerDown`; the unused `type` field and the `startTime` field,
which only feeds the empty-bodied tap check, are omitted). -/
structure GPointer where
  pid : ℕ
  startX : ℝ
  startY : ℝ
  x : ℝ
  y : ℝ

/-- The `mode` closure variable. -/
inductive GMode
  | drag
  | resize
  | pinch
  | swipe3
deriving DecidableEq

/-- The direction strings emitted to `onThreeFingerSwipe`. -/
inductive SwipeDir
  | dirUp
  | dirDown
  | dirLeft
  | dirRight
deriving DecidableEq

/-- A callback invocation observable from outside
`attachWindowGestures`.  `pinchEndOut none` is the argument-less
`onPinchEnd()` fired from `reset`, `pinchEndOut (some s)` the
`onPinchEnd({scale})` fired from `onPointerUp`. -/
inductive GOut
  | dragOut (x y : ℝ)
  | dragEnd
  | resizeOut (w h : ℝ)
  | resizeEnd
  | pinchOut (scale : ℝ)
  | pinchEndOut (scale : Option ℝ)
  | swipeOut (dir : SwipeDir)

/-- The closure state of one `attachWindowGestures` call. -/
structure GState where
  pointers : List GPointer
  mode : Option GMode
  pinchInitialDistance : ℝ
  pinchLastScale : ℝ
  startWindowX : ℝ
  startWindowY : ℝ
  startWidth : ℝ
  startHeight : ℝ
  frameRequested : Bool
  pendingDrag : Option (ℝ × ℝ)
  pendingResize : Option (ℝ × ℝ)
  pendingPinch : Option ℝ

/-- Pointer events delivered to the listeners.  `down` carries the
values the handler reads from the element at that moment
(`dataset.x/y`, `offsetWidth/Height`, already `|| 0`-defaulted) and
whether the target hit the resize handle resp. the drag handle.
`upEv`'s client coordinates are not carried: `onPointerUp` never reads
them into the modelled state.  `frame` is the animation-frame callback
registered by `scheduleFrame`. -/
inductive GEvent
  | down (pid : ℕ) (cx cy : ℝ) (winX winY winW winH : ℝ) (isResize isDrag : Bool)
  | move (pid : ℕ) (cx cy : ℝ)
  | upEv (pid : ℕ)
  | cancel (pid : ℕ)
  | frame

/-- `pointers.get(pointerId)`. -/
def pget (ps : List GPointer) (pid : ℕ) : Option GPointer :=
  ps.find? (fun p => p.pid == pid)

/-- `pointers.set(pointerId, v)`: a JS Map keeps the original insertion
position on overwrite and appends a fresh key. -/
def pset : List GPointer → GPointer → List GPointer
  | [], p => [p]
  | q :: qs, p => if q.pid = p.pid then p :: qs else q :: pset qs p

/-- The in-place mutation `pointer.x = clientX; pointer.y = clientY` in
`onPointerMove`. -/
def pupdate : List GPointer → ℕ → ℝ → ℝ → List GPointer
  | [], _, _, _ => []
  | q :: qs, pid, nx, ny =>
    if q.pid = pid then { q with x := nx, y := ny } :: qs
    else q :: pupdate qs pid nx ny

/-- `pointers.delete(pointerId)`. -/
def pdelete : List GPointer → ℕ → List GPointer
  | [], _ => []
  | q :: qs, pid => if q.pid = pid then qs else q :: pdelete qs pid

/-- `distance(a, b)` from `gestures.js`: `Math.hypot(b.x - a.x, b.y - a.y)`,
idealized over the reals. -/
noncomputable def gdistance (ax0 ay0 bx0 by0 : ℝ) : ℝ :=
  Real.sqrt ((bx0 - ax0) ^ 2 + (by0 - ay0) ^ 2)

/-- `averageDelta(pointers)` from `gestures.js`: the mean of
`pointer.x - pointer.startX` resp. `pointer.y - pointer.startY` over the
Map's entries (the unused `base` field is omitted). -/
noncomputable def averageDelta (ps : List GPointer) : ℝ × ℝ :=
  ((ps.map (fun p => p.x - p.startX)).sum / ps.length,
   (ps.map (fun p => p.y - p.startY)).sum / ps.length)

/-- The end-callback emissions of `reset()` given the previous mode. -/
def resetOuts (prevMode : Option GMode) : List GOut :=
  (if prevMode = some GMode.drag then [GOut.dragEnd] else []) ++
  (if prevMode = some GMode.resize then [GOut.resizeEnd] else []) ++
  (if prevMode = some GMode.pinch then [GOut.pinchEndOut none] else [])

/-- The state part of `reset()`: clear the pointer map and the pinch
reference state.  Note the pending callback payloads and the
`frameRequested` flag are *not* cleared by the source. -/
def resetState (s : GState) : GState :=
  { s with
    pointers := [], mode := none,
    pinchInitialDistance := 0, pinchLastScale := 1 }

/-- `onPointerDown`: ignore secondary buttons and targets outside both
handles (modelled by the `isResize`/`isDrag` flags); otherwise pick the
mode, register the pointer and re-read the window's start geometry. -/
def onPointerDown (s : GState) (pid : ℕ) (cx cy winX winY winW winH : ℝ)
    (isResize isDrag : Bool) : GState :=
  if !isResize && !isDrag then s
  else
    { s with
      mode := some (if isResize then GMode.resize else GMode.drag),
      pointers := pset s.pointers ⟨pid, cx, cy, cx, cy⟩,
      startWindowX := winX, startWindowY := winY,
      startWidth := winW, startHeight := winH }

open Classical in
/-- `onPointerMove`: update the pointer's position, then branch on the
pointer count and mode exactly as the source's `if`/`else if` chain.
The `movedDistance` check only clears the (unmodelled) long-press
timer.  In the two-pointer branch, `!pinchInitialDistance` (falsy test
on a number) re-seeds the initial distance whenever it is still `0`,
and the emitted scale is the ratio clamped into `[0.6, 1.6]`. -/
noncomputable def onPointerMove (s : GState) (pid : ℕ) (cx cy : ℝ) : GState :=
  match pget s.pointers pid with
  | none => s
  | some p =>
    let ps := pupdate s.pointers pid cx cy
    if ps.length = 1 ∧ s.mode = some GMode.drag then
      { s with
        pointers := ps,
        pendingDrag := some (s.startWindowX + (cx - p.startX),
                             s.startWindowY + (cy - p.startY)),
        frameRequested := true }
    else if ps.length = 1 ∧ s.mode = some GMode.resize then
      { s with
        pointers := ps,
        pendingResize := some (max 280 (s.startWidth + (cx - p.startX)),
                               max 220 (s.startHeight + (cy - p.startY))),
        frameRequested := true }
    else if ps.length = 2 then
      match ps with
      | first :: second :: _ =>
        let init0 := if s.pinchInitialDistance = 0
          then gdistance first.x first.y second.x second.y
          else s.pinchInitialDistance
        let dist := gdistance first.x first.y second.x second.y
        let scale := min (max (dist / init0) 0.6) 1.6
        { s with
          pointers := ps,
          pinchInitialDistance := init0,
          pinchLastScale := scale,
          mode := some GMode.pinch,
          pendingPinch := some scale,
          frameRequested := true }
      | _ => { s with pointers := ps }
    else
      { s with pointers := ps }

open Classical in
/-- `detectThreeFingerSwipe`, run after `onPointerMove` on every
pointer-move (see `handlePointerMove`). -/
noncomputable def detectThreeFingerSwipe (s : GState) : GState × List GOut :=
  if s.pointers.length ≠ 3 then (s, [])
  else if s.mode ≠ none ∧ s.mode ≠ some GMode.swipe3 then (s, [])
  else
    let s1 := { s with mode := some GMode.swipe3 }
    let d := averageDelta s1.pointers
    if |d.1| < 60 ∧ |d.2| < 60 then (s1, [])
    else
      let dir :=
        if |d.1| > |d.2| then (if d.1 > 0 then SwipeDir.dirRight else SwipeDir.dirLeft)
        else (if d.2 > 0 then SwipeDir.dirDown else SwipeDir.dirUp)
      (resetState s1, GOut.swipeOut dir :: resetOuts s1.mode)

open Classical in
/-- `onPointerUp`: drop the pointer, flush a pending drag/resize when
the last pointer leaves (also emitting the end callback), emit
`onPinchEnd({scale})` when a pinch scale is outstanding, and clear the
gesture state once the pointer set is empty. -/
noncomputable def onPointerUp (s0 : GState) (pid : ℕ) : GState × List GOut :=
  match pget s0.pointers pid with
  | none => (s0, [])
  | some _ =>
    let s1 := { s0 with pointers := pdelete s0.pointers pid }
    let step2 : GState × List GOut :=
      match s1.mode, s1.pointers, s1.pendingDrag with
      | some GMode.drag, [], some xy =>
        ({ s1 with pendingDrag := none }, [GOut.dragOut xy.1 xy.2, GOut.dragEnd])
      | _, _, _ => (s1, [])
    let s2 := step2.1
    let step3 : GState × List GOut :=
      match s2.mode, s2.pointers, s2.pendingResize with
      | some GMode.resize, [], some wh =>
        ({ s2 with pendingResize := none }, [GOut.resizeOut wh.1 wh.2, GOut.resizeEnd])
      | _, _, _ => (s2, [])
    let s3 := step3.1
    let outs4 : List GOut :=
      if s3.pointers = [] ∧ s3.pinchLastScale ≠ 1
      then [GOut.pinchEndOut (some s3.pinchLastScale)] else []
    let s5 :=
      if s3.pointers = []
      then { s3 with mode := none, pinchInitialDistance := 0, pinchLastScale := 1 }
      else s3
    (s5, step2.2 ++ step3.2 ++ outs4)

open Classical in
/-- `onPointerCancel`: drop the pointer if present; `reset()` when the
pointer set becomes empty. -/
noncomputable def onPointerCancel (s : GState) (pid : ℕ) : GState × List GOut :=
  let s1 := { s with pointers := pdelete s.pointers pid }
  if s1.pointers = [] then (resetState s1, resetOuts s1.mode) else (s1, [])

/-- `scheduleFrame`'s registered animation-frame callback: flush the
pending drag, resize and pinch payloads in that order.  When no frame
is scheduled no callback runs. -/
def onFrame (s : GState) : GState × List GOut :=
  if s.frameRequested then
    let o1 := match s.pendingDrag with
      | some xy => [GOut.dragOut xy.1 xy.2]
      | none => []
    let o2 := match s.pendingResize with
      | some wh => [GOut.resizeOut wh.1 wh.2]
      | none => []
    let o3 := match s.pendingPinch with
      | some sc => [GOut.pinchOut sc]
      | none => []
    ({ s with
       frameRequested := false, pendingDrag := none,
       pendingResize := none, pendingPinch := none }, o1 ++ o2 ++ o3)
  else (s, [])

/-- One delivered event.  A pointer-move runs `onPointerMove` and then
`detectThreeFingerSwipe` (the combined `handlePointerMove` listener). -/
noncomputable def gstep (s : GState) : GEvent → GState × List GOut
  | GEvent.down pid cx cy wx wy ww wh r d =>
    (onPointerDown s pid cx cy wx wy ww wh r d, [])
  | GEvent.move pid cx cy => detectThreeFingerSwipe (onPointerMove s pid cx cy)
  | GEvent.upEv pid => onPointerUp s pid
  | GEvent.cancel pid => onPointerCancel s pid
  | GEvent.frame => onFrame s

/-- Run a list of events, concatenating the emitted callbacks. -/
noncomputable def grun (s : GState) : List GEvent → GState × List GOut
  | [] => (s, [])
  | e :: es =>
    let r1 := gstep s e
    let r2 := grun r1.1 es
    (r2.1, r1.2 ++ r2.2)

/-- The closure state right after `attachWindowGestures(el)` runs, with
the element's dataset position and offset size at attach time. -/
def gInit (winX winY winW winH : ℝ) : GState :=
  { pointers := [], mode := none, pinchInitialDistance := 0,
    pinchLastScale := 1, startWindowX := winX, startWindowY := winY,
    startWidth := winW, startHeight := winH, frameRequested := false,
    pendingDrag := none, pendingResize := none, pendingPinch := none }

/-- The arguments of the `onDrag` invocations in an output trace. -/
def dragOutsOf : List GOut → List (ℝ × ℝ)
  | [] => []
  | GOut.dragOut x y :: rest => (x, y) :: dragOutsOf rest
  | _ :: rest => dragOutsOf rest

/-- The arguments of the `onPinch` invocations in an output trace. -/
def pinchOutsOf : List GOut → List ℝ
  | [] => []
  | GOut.pinchOut sc :: rest => sc :: pinchOutsOf rest
  | _ :: rest => pinchOutsOf rest

/-- The arguments of the `onThreeFingerSwipe` invocations in an output
trace. -/
def swipeOutsOf : List GOut → List SwipeDir
  | [] => []
  | GOut.swipeOut d :: rest => d :: swipeOutsOf rest
  | _ :: rest => swipeOutsOf rest

/-- Componentwise sum of all `onDrag` payloads in a trace. -/
def dragSum (outs : List GOut) : ℝ × ℝ :=
  (dragOutsOf outs).foldl (fun acc q => (acc.1 + q.1, acc.2 + q.2)) (0, 0)

/-- The payload of the last `onDrag` invocation in a trace, if any. -/
def lastDragOf (outs : List GOut) : Option (ℝ × ℝ) :=
  (dragOutsOf outs).getLast?

/-! ## Window-manager lemmas and claim theorems -/

lemma lookupWindow_id_eq {wm : WM} {id : String} {r : WRecord}
    (h : lookupWindow wm id = some r) : r.id = id := by
  have := List.find?_some h
  simpa using this

lemma lookupWindow_mem {wm : WM} {id : String} {r : WRecord}
    (h : lookupWindow wm id = some r) : r ∈ wm.windows :=
  List.mem_of_find?_eq_some h

/-- C5: `snapToGrid` maps any coordinate to the nearest multiple of the
fixed grid size `SNAP_SIZE = 24`: the snapped value is
`round(x / grid) * grid`, it is at least as close to `x` as any other
grid multiple, and on the spec's example the pair `(130, 101)` snaps to
`(120, 96)`. -/
theorem snap_nearest_grid_multiple :
    (∀ (v : ℚ), snap v = (round (v / SNAP_SIZE) : ℚ) * SNAP_SIZE) ∧
    (∀ (v : ℚ) (k : ℤ), |v - snap v| ≤ |v - SNAP_SIZE * k|) ∧
    snap 130 = 120 ∧ snap 101 = 96 := by
  refine ⟨fun v => rfl, fun v k => ?_, by norm_num [snap, SNAP_SIZE, round_eq],
    by norm_num [snap, SNAP_SIZE, round_eq]⟩
  have key := round_le (v / 24) k
  calc |v - snap v| = |24 * (v / 24 - (round (v / 24) : ℚ))| := by
        rw [snap]; rw [show (SNAP_SIZE : ℚ) = 24 from rfl]; ring_nf
    _ = 24 * |v / 24 - (round (v / 24) : ℚ)| := by
        rw [abs_mul]; norm_num
    _ ≤ 24 * |v / 24 - (k : ℚ)| := mul_le_mul_of_nonneg_left key (by norm_num)
    _ = |24 * (v / 24 - (k : ℚ))| := by rw [abs_mul]; norm_num
    _ = |v - SNAP_SIZE * k| := by
        rw [show (SNAP_SIZE : ℚ) = 24 from rfl]; ring_nf

/-- C6: `focusWindow(id)` on a known id bumps the z-index counter, gives
the focused window a z-index strictly greater than every previously
assigned one, leaves exactly one record marked focused, and preserves
the `z ≤ zIndexCursor` invariant. -/
theorem focusWindow_zindex (wm : WM) (id : String) (r : WRecord)
    (hk : lookupWindow wm id = some r)
    (hz : ∀ w ∈ wm.windows, w.z ≤ wm.zIndexCursor)
    (hn : (wm.windows.map WRecord.id).Nodup) :
    wm.zIndexCursor < (focusWindow wm id).zIndexCursor ∧
    (∀ w ∈ wm.windows, w.z < (focusWindow wm id).zIndexCursor) ∧
    (∃ w ∈ (focusWindow wm id).windows,
      w.id = id ∧ w.focused = true ∧ w.z = (focusWindow wm id).zIndexCursor) ∧
    ((focusWindow wm id).windows.countP (fun w => w.focused)) = 1 ∧
    (∀ w ∈ (focusWindow wm id).windows, w.z ≤ (focusWindow wm id).zIndexCursor) := by
  have hrid : r.id = id := lookupWindow_id_eq hk
  have hrmem : r ∈ wm.windows := lookupWindow_mem hk
  simp only [focusWindow, hk]
  refine ⟨Nat.lt_succ_self _, fun w hw => Nat.lt_succ_of_le (hz w hw), ?_, ?_, ?_⟩
  · refine ⟨{ r with z := wm.zIndexCursor + 1, focused := true },
      List.mem_map.mpr ⟨r, hrmem, ?_⟩, hrid, rfl, rfl⟩
    rw [if_pos hrid]
  · rw [List.countP_map]
    have hcong : ∀ w : WRecord,
        ((if w.id = id then { w with z := wm.zIndexCursor + 1, focused := true }
          else { w with focused := false }).focused) = (w.id == id) := by
      intro w
      by_cases h : w.id = id <;> simp [h]
    simp only [Function.comp_def, hcong]
    have hmemid : id ∈ wm.windows.map WRecord.id := by
      rw [← hrid]
      exact List.mem_map_of_mem WRecord.id hrmem
    have := List.count_eq_one_of_mem hn hmemid
    rw [← this, List.count, List.countP_map]
    rfl
  · intro w hw
    rcases List.mem_map.mp hw with ⟨v, hv, rfl⟩
    by_cases h : v.id = id
    · rw [if_pos h]
    · rw [if_neg h]
      exact Nat.le_succ_of_le (hz v hv)

/-- Two-window state used to witness `focusWindow_zindex`. -/
def wm0C6 : WM :=
  ⟨[⟨"a", ⟨0, 0, 0, 0⟩, 100, true, false, false, ""⟩,
    ⟨"b", ⟨0, 0, 0, 0⟩, 101, false, false, false, ""⟩], 101, []⟩

/-- Witness for C6 at a concrete two-window state. -/
theorem focusWindow_zindex_witness :
    wm0C6.zIndexCursor < (focusWindow wm0C6 "b").zIndexCursor ∧
    (∀ w ∈ wm0C6.windows, w.z < (focusWindow wm0C6 "b").zIndexCursor) ∧
    (∃ w ∈ (focusWindow wm0C6 "b").windows,
      w.id = "b" ∧ w.focused = true ∧ w.z = (focusWindow wm0C6 "b").zIndexCursor) ∧
    ((focusWindow wm0C6 "b").windows.countP (fun w => w.focused)) = 1 ∧
    (∀ w ∈ (focusWindow wm0C6 "b").windows, w.z ≤ (focusWindow wm0C6 "b").zIndexCursor) :=
  focusWindow_zindex wm0C6 "b" ⟨"b", ⟨0, 0, 0, 0⟩, 101, false, false, false, ""⟩
    (by decide) (by decide) (by decide)

/-- C9: `closeWindow(id)` is a no-op on an unknown id, and on a known id
removes the `WindowRecord` and its persisted geometry, after which a
`focusWindow(id)` is a no-op and the persisted layout for `id` is
absent. -/
theorem closeWindow_removes_record_and_layout (wm : WM) (id : String) :
    (lookupWindow wm id = none → closeWindow wm id = wm) ∧
    ((lookupWindow wm id).isSome →
      lookupWindow (closeWindow wm id) id = none ∧
      stateLookup (closeWindow wm id).state id = none ∧
      focusWindow (closeWindow wm id) id = closeWindow wm id) := by
  constructor
  · intro h
    simp only [closeWindow, h]
  · intro h
    rcases Option.isSome_iff_exists.mp h with ⟨r, hk⟩
    have hclose : closeWindow wm id =
        { wm with
          windows := wm.windows.filter (fun w => w.id != id),
          state := wm.state.filter (fun kv => kv.1 != id) } := by
      simp only [closeWindow, hk]
    have hwin : lookupWindow (closeWindow wm id) id = none := by
      rw [hclose]
      simp only [lookupWindow]
      rw [List.find?_eq_none]
      intro x hx
      have := (List.mem_filter.mp hx).2
      simpa using this
    refine ⟨hwin, ?_, ?_⟩
    · rw [hclose]
      simp only [stateLookup]
      rw [List.find?_eq_none.mpr]
      · rfl
      · intro x hx
        have := (List.mem_filter.mp hx).2
        simpa using this
    · simp only [focusWindow, hwin]

/-- One-window state with a persisted entry, used to witness
`closeWindow_removes_record_and_layout`. -/
def wm0C9 : WM :=
  ⟨[⟨"chat", ⟨80, 80, 360, 320⟩, 101, true, false, false, ""⟩], 101,
   [("chat", ⟨80, 80, 360, 320⟩)]⟩

/-- Witness for C9 at a concrete one-window state with persisted
layout. -/
theorem closeWindow_removes_record_and_layout_witness :
    lookupWindow (closeWindow wm0C9 "chat") "chat" = none ∧
    stateLookup (closeWindow wm0C9 "chat").state "chat" = none ∧
    focusWindow (closeWindow wm0C9 "chat") "chat" = closeWindow wm0C9 "chat" :=
  (closeWindow_removes_record_and_layout wm0C9 "chat").2 (by decide)

/-- One-window state used in the C8 counterexample. -/
def wm0C8 : WM :=
  ⟨[⟨"chat", ⟨80, 80, 360, 320⟩, 101, true, false, false, ""⟩], 101, []⟩

/-- C8 counterexample: `setWindowSize` applies a requested size smaller
than the configured minimum unchanged — requesting 100×100 yields a
100×100 window, below the 220×160 minimum. -/
theorem setWindowSize_below_minimum_counterexample :
    (lookupWindow (setWindowSize wm0C8 "chat" 100 100) "chat").map
        (fun r => (r.rect.w, r.rect.h)) = some (100, 100) ∧
    ¬ (220 ≤ (100 : ℚ)) ∧ ¬ (160 ≤ (100 : ℚ)) := by
  refine ⟨by decide, by norm_num, by norm_num⟩

/-- C8 amended: every *interactive* resize move clamps the requested
size to the 220×160 minimum (`startResize`'s move handler), but the
gesture-end handler snaps both dimensions to the nearest multiple of
24, which takes the minimal legal width 220 to 216 — below the
minimum. -/
theorem resizeMove_clamps_to_minimum :
    (∀ startW startH deltaX deltaY : ℚ,
      220 ≤ (resizeMove startW startH deltaX deltaY).1 ∧
      160 ≤ (resizeMove startW startH deltaX deltaY).2) ∧
    resizeUpSnap 220 160 = (216, 168) := by
  constructor
  · intro startW startH deltaX deltaY
    exact ⟨le_max_left _ _, le_max_left _ _⟩
  · show (snap 220, snap 160) = (216, 168)
    norm_num [snap, SNAP_SIZE, round_eq]

lemma focusWindow_map_id_eq (wm : WM) (id : String) (w : WRecord) :
    ((if w.id = id then { w with z := wm.zIndexCursor + 1, focused := true }
      else { w with focused := false }) : WRecord).id = w.id := by
  by_cases h : w.id = id <;> simp [h]

lemma focusWindow_ids (wm : WM) (id : String) :
    (focusWindow wm id).windows.map WRecord.id = wm.windows.map WRecord.id := by
  cases h : lookupWindow wm id with
  | none => simp only [focusWindow, h]
  | some r =>
    simp only [focusWindow, h, List.map_map]
    exact List.map_congr_left (fun w _ => focusWindow_map_id_eq wm id w)

lemma focusWindow_length (wm : WM) (id : String) :
    (focusWindow wm id).windows.length = wm.windows.length := by
  have := congrArg List.length (focusWindow_ids wm id)
  simpa using this

lemma focusWindow_lookup (wm : WM) (id : String) (r0 : WRecord)
    (hk : lookupWindow wm id = some r0) :
    lookupWindow (focusWindow wm id) id =
      some { r0 with z := wm.zIndexCursor + 1, focused := true } := by
  have hrid : r0.id = id := lookupWindow_id_eq hk
  have hfocus : focusWindow wm id =
      { wm with
        zIndexCursor := wm.zIndexCursor + 1,
        windows := wm.windows.map (fun w =>
          if w.id = id then { w with z := wm.zIndexCursor + 1, focused := true }
          else { w with focused := false }) } := by
    simp only [focusWindow, hk]
  rw [hfocus]
  simp only [lookupWindow]
  rw [List.find?_map]
  have hp : ((fun w : WRecord => w.id == id) ∘
      (fun w => if w.id = id then { w with z := wm.zIndexCursor + 1, focused := true }
        else { w with focused := false })) = (fun w : WRecord => w.id == id) := by
    funext w
    simp only [Function.comp_apply, focusWindow_map_id_eq]
  rw [hp]
  have hk' : wm.windows.find? (fun w => w.id == id) = some r0 := hk
  rw [hk']
  simp [hrid]

lemma countP_ids (l : List WRecord) (id : String) :
    l.countP (fun w => w.id == id) = (l.map WRecord.id).count id := by
  rw [List.count, List.countP_map]
  rfl

lemma find?_id_map_presId (l : List WRecord) (f : WRecord → WRecord)
    (hf : ∀ w, (f w).id = w.id) (id : String) :
    List.find? (fun w => w.id == id) (l.map f) =
      (List.find? (fun w => w.id == id) l).map f := by
  rw [List.find?_map]
  have hp : ((fun w : WRecord => w.id == id) ∘ f) = fun w : WRecord => w.id == id := by
    funext w
    simp [Function.comp, hf]
  rw [hp]

lemma ids_map_presId (l : List WRecord) (f : WRecord → WRecord)
    (hf : ∀ w, (f w).id = w.id) :
    (l.map f).map WRecord.id = l.map WRecord.id := by
  rw [List.map_map]
  exact List.map_congr_left (fun w _ => hf w)

lemma lookup_content_map (u : WM) (cid ch : String) (r : WRecord)
    (h : lookupWindow u cid = some r) :
    lookupWindow
      { u with
        windows := u.windows.map (fun w =>
          if w.id = cid then { w with content := ch } else w) } cid
      = some { r with content := ch } := by
  have hrid : r.id = cid := lookupWindow_id_eq h
  have hf2 : ∀ w : WRecord,
      ((if w.id = cid then { w with content := ch } else w) : WRecord).id = w.id := by
    intro w
    by_cases hw : w.id = cid <;> simp [hw]
  show (u.windows.map (fun w =>
      if w.id = cid then { w with content := ch } else w)).find?
      (fun w => w.id == cid) = some { r with content := ch }
  rw [find?_id_map_presId _ _ hf2]
  have h' : u.windows.find? (fun w => w.id == cid) = some r := h
  rw [h']
  simp [hrid]

lemma lookup_append_fresh (wm : WM) (id : String) (r : WRecord)
    (hk : lookupWindow wm id = none) (hrid : r.id = id) :
    lookupWindow { wm with windows := wm.windows ++ [r] } id = some r := by
  show (wm.windows ++ [r]).find? (fun w => w.id == id) = some r
  rw [List.find?_append]
  have h1 : wm.windows.find? (fun w => w.id == id) = none := hk
  rw [h1]
  simp [hrid]

lemma createWindow_call (wm : WM) (o : WOpts) (hid : o.id ≠ "")
    (hn : (wm.windows.map WRecord.id).Nodup) :
    ∃ wm1 r1, createWindow wm o = some (wm1, r1) ∧
      lookupWindow wm1 o.id = some r1 ∧
      r1.focused = true ∧
      (wm1.windows.map WRecord.id).Nodup ∧
      ((lookupWindow wm o.id).isSome →
        wm1.windows.length = wm.windows.length ∧
        ∀ r0, lookupWindow wm o.id = some r0 → r1.rect = r0.rect) := by
  cases hk : lookupWindow wm o.id with
  | some r0 =>
    have hfl := focusWindow_lookup wm o.id r0 hk
    have hids : (focusWindow wm o.id).windows.map WRecord.id
        = wm.windows.map WRecord.id := focusWindow_ids wm o.id
    have hlen : (focusWindow wm o.id).windows.length = wm.windows.length :=
      focusWindow_length wm o.id
    simp only [createWindow, hid, hk, if_neg hid]
    by_cases hc : o.contentHtml ≠ ""
    · rw [if_pos hc]
      rw [lookup_content_map (focusWindow wm o.id) o.id o.contentHtml _ hfl]
      rw [if_neg not_false]
      refine ⟨_, _, rfl, ?_, rfl, ?_, ?_⟩
      · exact lookup_content_map (focusWindow wm o.id) o.id o.contentHtml _ hfl
      · rw [ids_map_presId]
        · rw [hids]; exact hn
        · intro w
          by_cases hw : w.id = o.id <;> simp [hw]
      · intro _
        refine ⟨?_, ?_⟩
        · simpa using hlen
        · intro r1 h1
          cases h1
          rfl
    · rw [if_neg hc]
      rw [hfl]
      rw [if_neg not_false]
      refine ⟨_, _, rfl, hfl, rfl, ?_, ?_⟩
      · rw [hids]; exact hn
      · intro _
        refine ⟨hlen, ?_⟩
        intro r1 h1
        cases h1
        rfl
  | none =>
    have hnotin : o.id ∉ wm.windows.map WRecord.id := by
      intro hmem
      rcases List.mem_map.mp hmem with ⟨w, hw, hwid⟩
      have := List.find?_eq_none.mp hk w hw
      simp [hwid] at this
    simp only [createWindow, hid, hk, if_neg hid]
    rw [if_neg not_false]
    cases hsv : stateLookup wm.state o.id with
    | some saved =>
      dsimp only
      have hl1 := lookup_append_fresh wm o.id
        ⟨o.id, saved, 0, false, false, o.modal, o.contentHtml⟩ hk rfl
      have hfl2 := focusWindow_lookup _ o.id _ hl1
      rw [hfl2]
      refine ⟨_, _, rfl, hfl2, rfl, ?_, ?_⟩
      · rw [focusWindow_ids]
        rw [List.map_append]
        refine List.Nodup.append hn (List.nodup_singleton _) ?_
        intro a ha hb
        have hab : a = o.id := by simpa using hb
        exact hnotin (hab ▸ ha)
      · intro h
        simp at h
    | none =>
      dsimp only
      have hl1 := lookup_append_fresh wm o.id
        ⟨o.id, ⟨o.x, o.y, o.w, o.h⟩, 0, false, false, o.modal, o.contentHtml⟩ hk rfl
      have hfl2 := focusWindow_lookup _ o.id _ hl1
      rw [hfl2]
      refine ⟨_, _, rfl, hfl2, rfl, ?_, ?_⟩
      · rw [focusWindow_ids]
        rw [List.map_append]
        refine List.Nodup.append hn (List.nodup_singleton _) ?_
        intro a ha hb
        have hab : a = o.id := by simpa using hb
        exact hnotin (hab ▸ ha)
      · intro h
        simp at h

/-- C7: opening a window is idempotent on its id.  Calling
`createWindow` twice with the same options leaves the registry size
unchanged after the second call, keeps exactly one `WindowRecord` with
that id, and the second call re-focuses and returns the existing record
with its geometry intact. -/
theorem createWindow_idempotent_on_id (wm : WM) (o : WOpts)
    (hid : o.id ≠ "") (hn : (wm.windows.map WRecord.id).Nodup) :
    ∃ wm1 r1 wm2 r2,
      createWindow wm o = some (wm1, r1) ∧
      createWindow wm1 o = some (wm2, r2) ∧
      wm2.windows.length = wm1.windows.length ∧
      wm2.windows.countP (fun w => w.id == o.id) = 1 ∧
      r2.id = o.id ∧ r2.focused = true ∧ r2.rect = r1.rect ∧
      lookupWindow wm2 o.id = some r2 := by
  obtain ⟨wm1, r1, hc1, hl1, _, hn1, _⟩ := createWindow_call wm o hid hn
  obtain ⟨wm2, r2, hc2, hl2, hf2, hn2, hex⟩ := createWindow_call wm1 o hid hn1
  have hsome : (lookupWindow wm1 o.id).isSome := by rw [hl1]; rfl
  obtain ⟨hlen, hrect⟩ := hex hsome
  refine ⟨wm1, r1, wm2, r2, hc1, hc2, hlen, ?_,
    lookupWindow_id_eq hl2, hf2, hrect r1 hl1, hl2⟩
  rw [countP_ids]
  have hmem : o.id ∈ wm2.windows.map WRecord.id := by
    have hm := lookupWindow_mem hl2
    have hid2 := lookupWindow_id_eq hl2
    rw [← hid2]
    exact List.mem_map_of_mem WRecord.id hm
  exact List.count_eq_one_of_mem hn2 hmem

/-- Options used in the C7 witness. -/
def oC7 : WOpts := ⟨"chat", "Chat", "", 80, 80, 360, 320, false⟩

/-- Witness for C7: opening `"chat"` twice, starting from the empty
registry. -/
theorem createWindow_idempotent_on_id_witness :
    ∃ wm1 r1 wm2 r2,
      createWindow initWM oC7 = some (wm1, r1) ∧
      createWindow wm1 oC7 = some (wm2, r2) ∧
      wm2.windows.length = wm1.windows.length ∧
      wm2.windows.countP (fun w => w.id == oC7.id) = 1 ∧
      r2.id = oC7.id ∧ r2.focused = true ∧ r2.rect = r1.rect ∧
      lookupWindow wm2 oC7.id = some r2 :=
  createWindow_idempotent_on_id initWM oC7 (by decide) (by decide)

/-! ## Database lemmas and claim theorem (C10) -/

lemma jsReplaceAll_not_mem (needle : Char) (repl : List Char) (c : Char)
    (hrepl : c ∉ repl) :
    ∀ s : List Char, c ∉ s → c ∉ jsReplaceAll needle repl s := by
  intro s
  induction s with
  | nil => intro _ h; rw [jsReplaceAll] at h; exact absurd h (List.not_mem_nil c)
  | cons a as ih =>
    intro hs hmem
    rw [jsReplaceAll] at hmem
    rcases List.mem_append.mp hmem with h1 | h2
    · by_cases ha : a = needle
      · rw [if_pos ha] at h1
        exact hrepl h1
      · rw [if_neg ha] at h1
        have : c = a := by simpa using h1
        exact hs (by simp [this])
    · exact ih (fun hc => hs (List.mem_cons_of_mem _ hc)) h2

lemma jsReplaceAll_eliminates (needle : Char) (repl : List Char)
    (hrepl : needle ∉ repl) :
    ∀ s : List Char, needle ∉ jsReplaceAll needle repl s := by
  intro s
  induction s with
  | nil => simp [jsReplaceAll]
  | cons a as ih =>
    intro hmem
    rw [jsReplaceAll] at hmem
    rcases List.mem_append.mp hmem with h1 | h2
    · by_cases ha : a = needle
      · rw [if_pos ha] at h1
        exact hrepl h1
      · rw [if_neg ha] at h1
        have : needle = a := by simpa using h1
        exact ha this.symm
    · exact ih h2

/-- The four characters that C10 says can never survive into a stored
message text. -/
def rawChars : List Char := ['<', '>', quoteChar, aposChar]

lemma escapeHtml_no_raw (s : List Char) : ∀ c ∈ rawChars, c ∉ escapeHtml s := by
  intro c hc
  have hlt : ('<' : Char) ∉ escapeHtml s := by
    rw [escapeHtml]
    refine jsReplaceAll_not_mem _ _ _ (by decide) _ ?_
    refine jsReplaceAll_not_mem _ _ _ (by decide) _ ?_
    refine jsReplaceAll_not_mem _ _ _ (by decide) _ ?_
    exact jsReplaceAll_eliminates _ _ (by decide) _
  have hgt : ('>' : Char) ∉ escapeHtml s := by
    rw [escapeHtml]
    refine jsReplaceAll_not_mem _ _ _ (by decide) _ ?_
    refine jsReplaceAll_not_mem _ _ _ (by decide) _ ?_
    exact jsReplaceAll_eliminates _ _ (by decide) _
  have hq : quoteChar ∉ escapeHtml s := by
    rw [escapeHtml]
    refine jsReplaceAll_not_mem _ _ _ (by decide) _ ?_
    exact jsReplaceAll_eliminates _ _ (by decide) _
  have ha : aposChar ∉ escapeHtml s := by
    rw [escapeHtml]
    exact jsReplaceAll_eliminates _ _ (by decide) _
  fin_cases hc <;> assumption

lemma msgsLookup_msgsSet (ms : List (String × List DMessage)) (convId : String)
    (v : List DMessage) : msgsLookup (msgsSet ms convId v) convId = some v := by
  induction ms with
  | nil => simp [msgsSet, msgsLookup]
  | cons kv rest ih =>
    by_cases h : kv.1 = convId
    · simp [msgsSet, h, msgsLookup]
    · rw [msgsSet, if_neg h]
      rw [msgsLookup] at ih ⊢
      rw [List.find?_cons_of_neg]
      · exact ih
      · simp [h]

lemma getLast_drop_concat (l : List DMessage) (a : DMessage) (k : ℕ)
    (hk : k ≤ l.length) : (((l ++ [a]).drop k).getLast?) = some a := by
  rw [List.drop_append_of_le_length hk]
  exact List.getLast?_concat _

/-- C10: `saveMessage` stores the HTML-escaped form of the message text:
the stored record's text is `escapeHtml(message.text)`, it contains no
raw `<`, `>`, `"` or `'` character, and when the input text contains one
of those characters the text later returned by `getMessages` differs
from the input. -/
theorem saveMessage_escapes_html (db : Db) (convId : String)
    (message : DMessage) (freshId : String) (now : ℤ)
    (h : ∃ c ∈ rawChars, c ∈ message.text) :
    ∃ stored : DMessage,
      (getMessages (saveMessage db convId message freshId now) convId 50).getLast?
        = some stored ∧
      stored.text = escapeHtml message.text ∧
      (∀ c ∈ rawChars, c ∉ stored.text) ∧
      stored.text ≠ message.text := by
  have hne : message.text ≠ [] := by
    rcases h with ⟨c, _, hcm⟩
    intro he
    rw [he] at hcm
    exact absurd hcm (List.not_mem_nil c)
  refine ⟨{ id := if message.id = "" then freshId else message.id,
            author := message.author,
            text := escapeHtml message.text,
            createdAt := if message.createdAt = 0 then now else message.createdAt },
    ?_, rfl, escapeHtml_no_raw message.text, ?_⟩
  · simp only [getMessages, saveMessage]
    rw [if_neg hne]
    rw [msgsLookup_msgsSet]
    simp only [Option.getD_some]
    rw [if_neg (by norm_num : ¬(50 = 0))]
    refine getLast_drop_concat _ _ _ ?_
    simp only [List.length_append, List.length_singleton]
    omega
  · rcases h with ⟨c, hcraw, hcm⟩
    intro he
    have he2 : escapeHtml message.text = message.text := he
    rw [← he2] at hcm
    exact (escapeHtml_no_raw message.text c hcraw) hcm

/-- Database and message used in the C10 witness. -/
def dbC10 : Db := ⟨[⟨"conv-1", 0, 0⟩], []⟩

/-- Message whose text contains raw HTML, used in the C10 witness. -/
def msgC10 : DMessage := ⟨"", "Анна", "<b>hi</b>".data, 0⟩

/-- Witness for C10 at a concrete database and message. -/
theorem saveMessage_escapes_html_witness :
    ∃ stored : DMessage,
      (getMessages (saveMessage dbC10 "conv-1" msgC10 "msg-1" 5) "conv-1" 50).getLast?
        = some stored ∧
      stored.text = escapeHtml msgC10.text ∧
      (∀ c ∈ rawChars, c ∉ stored.text) ∧
      stored.text ≠ msgC10.text :=
  saveMessage_escapes_html dbC10 "conv-1" msgC10 "msg-1" 5 (by decide)

/-! ## Gesture lemmas and claim theorems (C1–C4) -/

lemma swipeOutsOf_append (a b : List GOut) :
    swipeOutsOf (a ++ b) = swipeOutsOf a ++ swipeOutsOf b := by
  induction a with
  | nil => rfl
  | cons x xs ih => cases x <;> simp [swipeOutsOf, ih]

lemma pget_isSome_ne_nil {ps : List GPointer} {pid : ℕ} {p : GPointer}
    (h : pget ps pid = some p) : ps ≠ [] := by
  intro he
  rw [he] at h
  simp [pget] at h

lemma pdelete_ne_nil {ps : List GPointer} {pid : ℕ} {a : GPointer} {l : List GPointer}
    (h : pdelete ps pid = a :: l) : ps ≠ [] := by
  intro he
  rw [he] at h
  simp [pdelete] at h

lemma swipeOutsOf_resetOuts (m : Option GMode) : swipeOutsOf (resetOuts m) = [] := by
  rcases m with _ | g
  · simp [resetOuts, swipeOutsOf]
  · cases g <;> simp [resetOuts, swipeOutsOf, swipeOutsOf_append]

/-- The reachability invariant of `attachWindowGestures`: whenever any
pointer is tracked the mode is set, and the mode is never `swipe3`
(every `pointerdown` that registers a pointer overwrites `mode` with
`drag` or `resize`, so `detectThreeFingerSwipe`'s `mode && mode !==
'swipe3'` guard always fires). -/
def GInv (s : GState) : Prop :=
  (s.pointers ≠ [] → s.mode ≠ none) ∧ s.mode ≠ some GMode.swipe3

lemma gInv_onPointerMove (s : GState) (pid : ℕ) (cx cy : ℝ) (h : GInv s) :
    GInv (onPointerMove s pid cx cy) := by
  cases hg : pget s.pointers pid with
  | none => simpa [onPointerMove, hg] using h
  | some p =>
    have hne : s.pointers ≠ [] := pget_isSome_ne_nil hg
    have hmode : s.mode ≠ none := h.1 hne
    simp only [onPointerMove, hg]
    split_ifs with h1 h2 h3 h4 <;>
      first
      | exact ⟨fun _ => hmode, h.2⟩
      | (cases hps : pupdate s.pointers pid cx cy with
          | nil => exact ⟨fun _ => hmode, h.2⟩
          | cons q qs =>
            cases qs with
            | nil => exact ⟨fun _ => hmode, h.2⟩
            | cons q2 qs2 => exact ⟨fun _ => by simp, by simp⟩)

lemma detect_of_inv (s : GState) (h : GInv s) :
    detectThreeFingerSwipe s = (s, []) := by
  by_cases h3 : s.pointers.length ≠ 3
  · simp only [detectThreeFingerSwipe, if_pos h3]
  · have hlen : s.pointers.length = 3 := by
      by_contra hc
      exact h3 hc
    have hne : s.pointers ≠ [] := by
      intro he
      rw [he] at hlen
      simp at hlen
    have hcond : s.mode ≠ none ∧ s.mode ≠ some GMode.swipe3 := ⟨h.1 hne, h.2⟩
    simp only [detectThreeFingerSwipe, if_neg h3, if_pos hcond]

lemma gInv_onPointerUp (s : GState) (pid : ℕ) (h : GInv s) :
    GInv (onPointerUp s pid).1 ∧ swipeOutsOf (onPointerUp s pid).2 = [] := by
  cases hg : pget s.pointers pid with
  | none =>
    simp only [onPointerUp, hg]
    exact ⟨h, rfl⟩
  | some p =>
    have hne : s.pointers ≠ [] := pget_isSome_ne_nil hg
    have hmode : s.mode ≠ none := h.1 hne
    simp only [onPointerUp, hg]
    rcases hm : s.mode with _ | g
    · exact absurd hm hmode
    · cases g <;>
      · cases hp : pdelete s.pointers pid with
        | nil =>
          rcases hpd : s.pendingDrag with _ | xy <;>
          rcases hpr : s.pendingResize with _ | wh <;>
          dsimp only <;>
          split_ifs <;>
          simp_all [GInv, swipeOutsOf_append, swipeOutsOf]
        | cons a l =>
          rcases hpd : s.pendingDrag with _ | xy <;>
          rcases hpr : s.pendingResize with _ | wh <;>
          dsimp only <;>
          split_ifs <;>
          simp_all [GInv, swipeOutsOf_append, swipeOutsOf]

lemma gInv_onPointerCancel (s : GState) (pid : ℕ) (h : GInv s) :
    GInv (onPointerCancel s pid).1 ∧ swipeOutsOf (onPointerCancel s pid).2 = [] := by
  simp only [onPointerCancel]
  cases hp : pdelete s.pointers pid with
  | nil =>
    dsimp only
    rw [if_pos rfl]
    exact ⟨⟨fun hc => absurd rfl hc, by simp [resetState]⟩, swipeOutsOf_resetOuts _⟩
  | cons a l =>
    dsimp only
    rw [if_neg (by simp)]
    have hne : s.pointers ≠ [] := pdelete_ne_nil hp
    exact ⟨⟨fun _ => h.1 hne, h.2⟩, rfl⟩

lemma gInv_gstep (s : GState) (e : GEvent) (h : GInv s) :
    GInv (gstep s e).1 ∧ swipeOutsOf (gstep s e).2 = [] := by
  cases e with
  | down pid cx cy wx wy ww wh r d =>
    refine ⟨?_, rfl⟩
    simp only [gstep, onPointerDown]
    split_ifs with h1 h2
    · exact h
    · exact ⟨fun _ => by simp, by simp⟩
    · exact ⟨fun _ => by simp, by simp⟩
  | move pid cx cy =>
    have h1 := gInv_onPointerMove s pid cx cy h
    simp only [gstep]
    rw [detect_of_inv _ h1]
    exact ⟨h1, rfl⟩
  | upEv pid => exact gInv_onPointerUp s pid h
  | cancel pid => exact gInv_onPointerCancel s pid h
  | frame =>
    simp only [gstep, onFrame]
    split_ifs with hf
    · refine ⟨⟨h.1, h.2⟩, ?_⟩
      rcases s.pendingDrag with _ | xy <;>
      rcases s.pendingResize with _ | wh <;>
      rcases s.pendingPinch with _ | sc <;>
      simp [swipeOutsOf_append, swipeOutsOf]
    · exact ⟨h, rfl⟩

/-- C3 (code_bug): `onThreeFingerSwipe` is dead code in
`attachWindowGestures`.  Every `pointerdown` that registers a pointer
sets `mode` to `'drag'` or `'resize'`, so whenever three pointers are
active `mode` is non-null and never `'swipe3'`, and
`detectThreeFingerSwipe`'s `if (mode && mode !== 'swipe3') return`
guard always returns: no event sequence ever emits a three-finger
swipe, contradicting the claimed threshold/direction behaviour. -/
theorem gestures_three_finger_swipe_never_fires :
    ∀ (winX winY winW winH : ℝ) (es : List GEvent),
      swipeOutsOf (grun (gInit winX winY winW winH) es).2 = [] := by
  intro winX winY winW winH es
  suffices hgen : ∀ (es : List GEvent) (s : GState), GInv s →
      swipeOutsOf (grun s es).2 = [] by
    exact hgen es _ ⟨fun hc => absurd rfl hc, by simp [gInit]⟩
  intro es
  induction es with
  | nil => intro s _; rfl
  | cons e rest ih =>
    intro s hs
    obtain ⟨h1, h2⟩ := gInv_gstep s e hs
    simp only [grun]
    rw [swipeOutsOf_append, h2, ih _ h1]
    rfl

def midsToEvents (pid : ℕ) (mids : List (Option (ℝ × ℝ))) : List GEvent :=
  mids.map (fun m => match m with
    | some q => GEvent.move pid q.1 q.2
    | none => GEvent.frame)

lemma dragOutsOf_append (a b : List GOut) :
    dragOutsOf (a ++ b) = dragOutsOf a ++ dragOutsOf b := by
  induction a with
  | nil => rfl
  | cons x xs ih => cases x <;> simp [dragOutsOf, ih]

lemma lastDragOf_append (a b : List GOut) :
    lastDragOf (a ++ b) =
      if lastDragOf b = none then lastDragOf a else lastDragOf b := by
  rw [lastDragOf, lastDragOf, lastDragOf, dragOutsOf_append]
  cases hb : dragOutsOf b with
  | nil => simp
  | cons y ys =>
    rw [List.getLast?_append_of_ne_nil _ (by simp)]
    rw [if_neg (by simp)]

lemma midsToEvents_nil (pid : ℕ) : midsToEvents pid [] = [] := rfl

lemma midsToEvents_cons_some (pid : ℕ) (q : ℝ × ℝ) (rest : List (Option (ℝ × ℝ))) :
    midsToEvents pid (some q :: rest) =
      GEvent.move pid q.1 q.2 :: midsToEvents pid rest := rfl

lemma midsToEvents_cons_none (pid : ℕ) (rest : List (Option (ℝ × ℝ))) :
    midsToEvents pid (none :: rest) = GEvent.frame :: midsToEvents pid rest := rfl

lemma c1_run_aux (pid : ℕ) (x0 y0 wx wy ww wh : ℝ) :
    ∀ (mids : List (Option (ℝ × ℝ))) (px py pidist : ℝ) (fr : Bool)
      (pd : Option (ℝ × ℝ)),
      (pd = none ∨ pd = some (wx + (px - x0), wy + (py - y0))) →
      lastDragOf (grun
        ⟨[⟨pid, x0, y0, px, py⟩], some GMode.drag, pidist, 1, wx, wy, ww, wh, fr,
          pd, none, none⟩
        (midsToEvents pid mids ++ [GEvent.upEv pid])).2
      = if pd = none ∧ mids.filterMap id = [] then none
        else some (wx + (((mids.filterMap id).getLastD (px, py)).1 - x0),
                   wy + (((mids.filterMap id).getLastD (px, py)).2 - y0)) := by
  intro mids
  induction mids with
  | nil =>
    intro px py pidist fr pd hpd
    rcases hpd with rfl | rfl
    · rw [midsToEvents_nil]
      simp [grun, gstep, onPointerUp, pget, pdelete, lastDragOf, dragOutsOf]
    · rw [midsToEvents_nil]
      simp [grun, gstep, onPointerUp, pget, pdelete, lastDragOf, dragOutsOf]
  | cons m rest ih =>
    intro px py pidist fr pd hpd
    cases m with
    | some q =>
      have hstep : gstep (⟨[⟨pid, x0, y0, px, py⟩], some GMode.drag, pidist, 1,
          wx, wy, ww, wh, fr, pd, none, none⟩ : GState) (GEvent.move pid q.1 q.2)
          = (⟨[⟨pid, x0, y0, q.1, q.2⟩], some GMode.drag, pidist, 1, wx, wy, ww, wh, true,
              some (wx + (q.1 - x0), wy + (q.2 - y0)), none, none⟩, []) := by
        simp [gstep, onPointerMove, pget, pupdate, detectThreeFingerSwipe]
      rw [midsToEvents_cons_some]
      simp only [List.cons_append, grun]
      rw [hstep]
      dsimp only
      simp only [List.append_eq, List.nil_append]
      rw [ih q.1 q.2 pidist true (some (wx + (q.1 - x0), wy + (q.2 - y0))) (Or.inr rfl)]
      have hfc : List.filterMap id (some q :: rest) = q :: List.filterMap id rest := by
        simp
      rw [hfc, if_neg (by simp), if_neg (by simp), List.getLastD_cons]
    | none =>
      cases fr with
      | false =>
        have hstep : gstep (⟨[⟨pid, x0, y0, px, py⟩], some GMode.drag, pidist, 1,
            wx, wy, ww, wh, false, pd, none, none⟩ : GState) GEvent.frame
            = (⟨[⟨pid, x0, y0, px, py⟩], some GMode.drag, pidist, 1, wx, wy, ww, wh, false,
                pd, none, none⟩, []) := by
          simp [gstep, onFrame]
        rw [midsToEvents_cons_none]
        simp only [List.cons_append, grun]
        rw [hstep]
        dsimp only
        simp only [List.append_eq, List.nil_append]
        rw [ih px py pidist false pd hpd]
        simp [List.filterMap_cons]
      | true =>
        rcases hpd with rfl | rfl
        · have hstep : gstep (⟨[⟨pid, x0, y0, px, py⟩], some GMode.drag, pidist, 1,
              wx, wy, ww, wh, true, none, none, none⟩ : GState) GEvent.frame
              = (⟨[⟨pid, x0, y0, px, py⟩], some GMode.drag, pidist, 1, wx, wy, ww, wh, false,
                  none, none, none⟩, []) := by
            simp [gstep, onFrame]
          rw [midsToEvents_cons_none]
          simp only [List.cons_append, grun]
          rw [hstep]
          dsimp only
          simp only [List.append_eq, List.nil_append]
          rw [ih px py pidist false none (Or.inl rfl)]
          simp [List.filterMap_cons]
        · have hstep : gstep (⟨[⟨pid, x0, y0, px, py⟩], some GMode.drag, pidist, 1,
              wx, wy, ww, wh, true, some (wx + (px - x0), wy + (py - y0)), none, none⟩ : GState)
              GEvent.frame
              = (⟨[⟨pid, x0, y0, px, py⟩], some GMode.drag, pidist, 1, wx, wy, ww, wh, false,
                  none, none, none⟩,
                 [GOut.dragOut (wx + (px - x0)) (wy + (py - y0))]) := by
            simp [gstep, onFrame]
          rw [midsToEvents_cons_none]
          simp only [List.cons_append, grun]
          rw [hstep]
          dsimp only
          simp only [List.append_eq]
          rw [lastDragOf_append, ih px py pidist false none (Or.inl rfl)]
          by_cases hrest : rest.filterMap id = []
          · simp [hrest, lastDragOf, dragOutsOf, List.filterMap_cons]
          · simp [hrest, List.filterMap_cons]

/-- The concrete single-pointer drag used in the C1 counterexample:
down at (0,0), moves to (10,0) and (20,0), each flushed by an
animation frame, then pointer up. -/
def c1Trace : List GEvent :=
  [GEvent.down 1 0 0 0 0 300 300 false true,
   GEvent.move 1 10 0,
   GEvent.frame,
   GEvent.move 1 20 0,
   GEvent.frame,
   GEvent.upEv 1]

/-- C1 counterexample: `onDrag` receives absolute window target
positions `{x: startWindowX + dx, y: startWindowY + dy}`, not
per-call displacement increments.  For the drag `c1Trace` (total
pointer displacement `(20 − 0, 0 − 0) = (20, 0)` with the window
starting at `(0,0)`), the values passed to `onDrag` are `(10,0)` and
`(20,0)`, whose cumulative sum `(30, 0)` differs from the pointer's
total displacement `(20, 0)`. -/
theorem gestures_drag_sum_counterexample :
    dragOutsOf (grun (gInit 0 0 300 300) c1Trace).2 = [(10, 0), (20, 0)] ∧
    dragSum (grun (gInit 0 0 300 300) c1Trace).2 = (30, 0) ∧
    ((30 : ℝ), (0 : ℝ)) ≠ ((20 - 0 : ℝ), (0 - 0 : ℝ)) := by
  refine ⟨?_, ?_, ?_⟩
  · norm_num [c1Trace, grun, gstep, gInit, onPointerDown, onPointerMove, onPointerUp,
      onFrame, detectThreeFingerSwipe, pget, pset, pupdate, pdelete, dragOutsOf]
  · norm_num [c1Trace, grun, gstep, gInit, onPointerDown, onPointerMove, onPointerUp,
      onFrame, detectThreeFingerSwipe, pget, pset, pupdate, pdelete, dragSum, dragOutsOf]
  · intro h
    rw [Prod.ext_iff] at h
    norm_num at h

/-- C1 amended: for any single-pointer drag gesture
(down, then any interleaving of moves and animation frames, then up),
the *final* `onDrag` value is the absolute position
`(startWindowX + (finalX − startX), startWindowY + (finalY − startY))`,
where `(finalX, finalY)` is the pointer's position at its last move:
the final emitted position minus the window's start position equals
the pointer's total displacement. -/
theorem gestures_drag_final_position (pid : ℕ) (x0 y0 wx wy ww wh : ℝ)
    (mids : List (Option (ℝ × ℝ))) (hmv : mids.filterMap id ≠ []) :
    lastDragOf (grun (gInit wx wy ww wh)
        (GEvent.down pid x0 y0 wx wy ww wh false true ::
          (midsToEvents pid mids ++ [GEvent.upEv pid]))).2
      = some (wx + (((mids.filterMap id).getLastD (x0, y0)).1 - x0),
              wy + (((mids.filterMap id).getLastD (x0, y0)).2 - y0)) := by
  have hstep : gstep (gInit wx wy ww wh) (GEvent.down pid x0 y0 wx wy ww wh false true)
      = (⟨[⟨pid, x0, y0, x0, y0⟩], some GMode.drag, 0, 1, wx, wy, ww, wh, false,
          none, none, none⟩, []) := by
    simp [gstep, onPointerDown, gInit, pset]
  simp only [grun]
  rw [hstep]
  dsimp only
  simp only [List.append_eq, List.nil_append]
  rw [c1_run_aux pid x0 y0 wx wy ww wh mids x0 y0 0 false none (Or.inl rfl)]
  rw [if_neg (by simp [hmv])]

/-- Witness for C1's amended statement: a drag whose single move goes
to (10, 5) ends with `onDrag` reporting exactly (10, 5). -/
theorem gestures_drag_final_position_witness :
    lastDragOf (grun (gInit 0 0 300 300)
        (GEvent.down 1 0 0 0 0 300 300 false true ::
          (midsToEvents 1 [some (10, 5)] ++ [GEvent.upEv 1]))).2
      = some (10, 5) := by
  have h := gestures_drag_final_position 1 0 0 0 0 300 300 [some (10, 5)] (by simp)
  simpa using h

lemma gdistance_vertical (d : ℝ) (hd : 0 ≤ d) : gdistance 0 0 0 d = d := by
  rw [gdistance]
  norm_num
  exact Real.sqrt_sq hd

/-- A two-pointer gesture whose second contact starts `d0` below the
first and then moves to exactly twice that distance. -/
def pinchTrace (d0 : ℝ) : List GEvent :=
  [GEvent.down 1 0 0 0 0 300 300 false true,
   GEvent.down 2 0 d0 0 0 300 300 false true,
   GEvent.move 2 0 d0,
   GEvent.frame,
   GEvent.move 2 0 (2 * d0),
   GEvent.frame]

/-- C2 amended: the scale emitted to `onPinch` is the distance ratio
clamped into `[0.6, 1.6]` (`Math.min(Math.max(dist / initial, 0.6), 1.6)`,
with the initial distance seeded at the first two-pointer move).  When
the current distance is exactly 2× the initial distance the emitted
scale is the clamp bound `1.6`, not `2.0`. -/
theorem gestures_pinch_scale_clamped (d0 : ℝ) (hd0 : 0 < d0) :
    pinchOutsOf (grun (gInit 0 0 300 300) (pinchTrace d0)).2 = [1, 1.6] := by
  have h1 : gdistance 0 0 0 d0 = d0 := gdistance_vertical d0 hd0.le
  have h2 : gdistance 0 0 0 (2 * d0) = 2 * d0 :=
    gdistance_vertical (2 * d0) (by linarith)
  have h3 : d0 / d0 = 1 := div_self (ne_of_gt hd0)
  have h4 : (2 * d0) / d0 = 2 := by
    field_simp
  have h5 : d0 ≠ 0 := ne_of_gt hd0
  have hs1 : gstep (gInit 0 0 300 300) (GEvent.down 1 0 0 0 0 300 300 false true)
      = (⟨[⟨1, 0, 0, 0, 0⟩], some GMode.drag, 0, 1,
          0, 0, 300, 300, false, none, none, none⟩, []) := by
    norm_num [gstep, onPointerDown, gInit, pset]
  have hs2 : gstep (⟨[⟨1, 0, 0, 0, 0⟩], some GMode.drag, 0, 1,
        0, 0, 300, 300, false, none, none, none⟩ : GState)
        (GEvent.down 2 0 d0 0 0 300 300 false true)
      = (⟨[⟨1, 0, 0, 0, 0⟩, ⟨2, 0, d0, 0, d0⟩], some GMode.drag, 0, 1,
          0, 0, 300, 300, false, none, none, none⟩, []) := by
    norm_num [gstep, onPointerDown, pset]
  have hs3 : gstep (⟨[⟨1, 0, 0, 0, 0⟩, ⟨2, 0, d0, 0, d0⟩], some GMode.drag, 0, 1,
        0, 0, 300, 300, false, none, none, none⟩ : GState) (GEvent.move 2 0 d0)
      = (⟨[⟨1, 0, 0, 0, 0⟩, ⟨2, 0, d0, 0, d0⟩], some GMode.pinch, d0, 1,
          0, 0, 300, 300, true, none, none, some 1⟩, []) := by
    norm_num [gstep, onPointerMove, pget, pupdate, detectThreeFingerSwipe, h1, h3]
  have hs4 : gstep (⟨[⟨1, 0, 0, 0, 0⟩, ⟨2, 0, d0, 0, d0⟩], some GMode.pinch, d0, 1,
        0, 0, 300, 300, true, none, none, some 1⟩ : GState) GEvent.frame
      = (⟨[⟨1, 0, 0, 0, 0⟩, ⟨2, 0, d0, 0, d0⟩], some GMode.pinch, d0, 1,
          0, 0, 300, 300, false, none, none, none⟩, [GOut.pinchOut 1]) := by
    norm_num [gstep, onFrame]
  have hs5 : gstep (⟨[⟨1, 0, 0, 0, 0⟩, ⟨2, 0, d0, 0, d0⟩], some GMode.pinch, d0, 1,
        0, 0, 300, 300, false, none, none, none⟩ : GState) (GEvent.move 2 0 (2 * d0))
      = (⟨[⟨1, 0, 0, 0, 0⟩, ⟨2, 0, d0, 0, 2 * d0⟩], some GMode.pinch, d0, 1.6,
          0, 0, 300, 300, true, none, none, some 1.6⟩, []) := by
    norm_num [gstep, onPointerMove, pget, pupdate, detectThreeFingerSwipe, h2, h4, h5,
      min_def, max_def]
  have hs6 : gstep (⟨[⟨1, 0, 0, 0, 0⟩, ⟨2, 0, d0, 0, 2 * d0⟩], some GMode.pinch, d0, 1.6,
        0, 0, 300, 300, true, none, none, some 1.6⟩ : GState) GEvent.frame
      = (⟨[⟨1, 0, 0, 0, 0⟩, ⟨2, 0, d0, 0, 2 * d0⟩], some GMode.pinch, d0, 1.6,
          0, 0, 300, 300, false, none, none, none⟩, [GOut.pinchOut 1.6]) := by
    norm_num [gstep, onFrame]
  show pinchOutsOf (grun (gInit 0 0 300 300)
    [GEvent.down 1 0 0 0 0 300 300 false true,
     GEvent.down 2 0 d0 0 0 300 300 false true,
     GEvent.move 2 0 d0,
     GEvent.frame,
     GEvent.move 2 0 (2 * d0),
     GEvent.frame]).2 = [1, 1.6]
  simp only [grun]
  rw [hs1]
  dsimp only
  rw [hs2]
  dsimp only
  rw [hs3]
  dsimp only
  rw [hs4]
  dsimp only
  rw [hs5]
  dsimp only
  rw [hs6]
  dsimp only
  simp [pinchOutsOf]

/-- Witness for C2's amended statement at initial distance 10. -/
theorem gestures_pinch_scale_clamped_witness :
    pinchOutsOf (grun (gInit 0 0 300 300) (pinchTrace 10)).2 = [1, 1.6] :=
  gestures_pinch_scale_clamped 10 (by norm_num)

lemma gdistance_0_5 : gdistance 0 0 0 5 = 5 := gdistance_vertical 5 (by norm_num)

lemma gdistance_0_10 : gdistance 0 0 0 10 = 10 := gdistance_vertical 10 (by norm_num)

/-- C2 counterexample: in the pinch `pinchTrace 5` the initial distance
is 5 and the final distance is 10 — exactly 2× — yet the last scale
passed to `onPinch` is the clamp bound `1.6`, not
`currentDistance / initialDistance = 2.0`. -/
theorem gestures_pinch_double_distance_counterexample :
    gdistance 0 0 0 10 / gdistance 0 0 0 5 = 2 ∧
    pinchOutsOf (grun (gInit 0 0 300 300) (pinchTrace 5)).2 = [1, 1.6] ∧
    (1.6 : ℝ) ≠ 2 := by
  refine ⟨?_, ?_, by norm_num⟩
  · rw [gdistance_0_5, gdistance_0_10]
    norm_num
  · norm_num [pinchTrace, grun, gstep, gInit, onPointerDown, onPointerMove, onPointerUp,
      onFrame, detectThreeFingerSwipe, pget, pset, pupdate, pdelete,
      pinchOutsOf, gdistance_0_5, gdistance_0_10, min_def, max_def]

/-- Two pointers down at the same position (5,5), then a move: the
coincident-contact pinch of C4. -/
def c4Trace : List GEvent :=
  [GEvent.down 1 5 5 0 0 300 300 false true,
   GEvent.down 2 5 5 0 0 300 300 false true,
   GEvent.move 2 5 5,
   GEvent.frame]

/-- C4 (code_bug): with the two pointers coincident the inter-pointer
distance is 0, `pinchInitialDistance` is (re-)seeded to 0, and the
recognizer still computes `dist / pinchInitialDistance = 0 / 0` and
emits it through `onPinch` — there is no guard skipping the scale
computation until the distance is positive.  (In this real-valued
embedding `0 / 0 = 0` so the emitted value is `min (max (0/0) 0.6) 1.6
= 0.6`; in JavaScript `0 / 0` is `NaN`, which `Math.max`/`Math.min`
propagate, so the browser emits `scale: NaN`.) -/
theorem gestures_pinch_zero_distance_emits :
    gdistance 5 5 5 5 = 0 ∧
    pinchOutsOf (grun (gInit 0 0 300 300) c4Trace).2 = [min (max (0 / 0) 0.6) 1.6] := by
  have h0 : gdistance 5 5 5 5 = 0 := by
    rw [gdistance]
    norm_num
  refine ⟨h0, ?_⟩
  norm_num [c4Trace, grun, gstep, gInit, onPointerDown, onPointerMove, onPointerUp,
    onFrame, detectThreeFingerSwipe, pget, pset, pupdate, pdelete,
    pinchOutsOf, h0, min_def, max_def]
